import Mathlib

/-!
Shallow embedding of the xds_cluster_manager load-balancing policy
(src/core/ext/filters/client_channel/lb_policy/xds/xds_cluster_manager.cc).

The policy object XdsClusterManagerLb is modelled as an explicit state record;
its mutating methods become state-passing functions.  Calls the policy makes to
channel_control_helper()->UpdateState(...) (the aggregate publications) are
modelled as an append-only log in the state.  Inner child policy instances are
opaque: each created instance is identified by a fresh natural number, and the
connectivity/picker callbacks a child fires are external events fed to the
transition relation.  Subchannel pickers held by children are likewise opaque
identifiers inside the router state; the call-time ClusterPicker::Pick logic is
modelled separately as a pure function over picking functions.
-/

/-- Connectivity states a child reports upward (grpc_connectivity_state, minus
SHUTDOWN, which the default branch of UpdateStateLocked treats as
unreachable). -/
inductive ConnectivityState
  | READY
  | CONNECTING
  | IDLE
  | TRANSIENT_FAILURE
deriving DecidableEq, Repr

/-- Result of a pick (LoadBalancingPolicy::PickResult): completion with a
subchannel, a queue directive, or a failure/drop carrying a status message. -/
inductive PickResult
  | Complete (subchannel : Nat)
  | Queue
  | Fail (message : String)
  | Drop (message : String)
deriving DecidableEq, Repr

/-- Arguments of a pick.  cluster_attribute models the call attribute fetched
via GetCallAttribute(XdsClusterAttributeTypeName()); data stands for the rest
of PickArgs, which ClusterPicker forwards untouched. -/
structure PickArgs where
  cluster_attribute : String
  data : Nat
deriving DecidableEq, Repr

/-- ChildPickerWrapper: a name paired with the wrapped child picking function
(SubchannelPicker modelled as a function on PickArgs). -/
structure ChildPickerWrapper where
  name_ : String
  picker_ : PickArgs → PickResult

/-- Pick of a ChildPickerWrapper just delegates to the wrapped picker. -/
def ChildPickerWrapper.Pick (w : ChildPickerWrapper) (args : PickArgs) : PickResult :=
  w.picker_ args

/-- Association-list lookup, the model of std::map find/operator[] reads used
throughout; keys are cluster names. -/
def alookup {α : Type} : List (String × α) → String → Option α
  | [], _ => none
  | p :: t, k => if p.1 = k then some p.2 else alookup t k

/-- Keys of an association list, in order. -/
def akeys {α : Type} (l : List (String × α)) : List String :=
  l.map Prod.fst

/-- Key-preserving map over the values of an association list. -/
def amap {α β : Type} (l : List (String × α)) (g : String → α → β) :
    List (String × β) :=
  l.map fun p => (p.1, g p.1 p.2)

/-- Pointwise rewrite of every value whose key matches, the model of mutating
the mapped-to object of one key in a std::map. -/
def aupdate {α : Type} (l : List (String × α)) (k : String) (f : α → α) :
    List (String × α) :=
  amap l fun k' v => if k' = k then f v else v

/-- Removal of a key, the model of std::map::erase. -/
def aerase {α : Type} (l : List (String × α)) (k : String) : List (String × α) :=
  l.filter fun p => decide (p.1 ≠ k)

/-- Insert a default value iff the key is absent, the model of the
default-constructing std::map::operator[] on a missing key. -/
def aensure {α : Type} (l : List (String × α)) (k : String) (v : α) :
    List (String × α) :=
  match alookup l k with
  | some _ => l
  | none => l ++ [(k, v)]

/-- ClusterPicker: the immutable cluster-name → ChildPickerWrapper snapshot
that performs call-time routing. -/
structure ClusterPicker where
  cluster_map_ : List (String × ChildPickerWrapper)

/-- ClusterPicker::Pick: look the call's cluster attribute up in the map;
delegate on a hit, fail with the unknown-cluster message on a miss. -/
def ClusterPicker.Pick (p : ClusterPicker) (args : PickArgs) : PickResult :=
  match alookup p.cluster_map_ args.cluster_attribute with
  | some w => w.Pick args
  | none =>
      PickResult.Fail
        ("xds cluster manager picker: unknown cluster \"" ++
          args.cluster_attribute ++ "\"")

theorem alookup_eq_none_iff {α : Type} {l : List (String × α)} {k : String} :
    alookup l k = none ↔ k ∉ akeys l := by
  induction l with
  | nil => simp [alookup, akeys]
  | cons p t ih =>
      by_cases h : p.1 = k
      · simp [alookup, akeys, h]
      · simp [alookup, akeys, h, ih, Ne.symm h]

theorem alookup_isSome_iff {α : Type} {l : List (String × α)} {k : String} :
    (alookup l k).isSome = true ↔ k ∈ akeys l := by
  induction l with
  | nil => simp [alookup, akeys]
  | cons p t ih =>
      by_cases h : p.1 = k
      · simp [alookup, akeys, h]
      · simp [alookup, akeys, h, ih, Ne.symm h]

theorem alookup_append {α : Type} (l m : List (String × α)) (k : String) :
    alookup (l ++ m) k =
      match alookup l k with
      | some v => some v
      | none => alookup m k := by
  induction l with
  | nil => simp [alookup]
  | cons p t ih =>
      by_cases h : p.1 = k <;> simp [alookup, h, ih]

theorem alookup_amap {α β : Type} (l : List (String × α))
    (g : String → α → β) (k : String) :
    alookup (amap l g) k = (alookup l k).map (g k) := by
  induction l with
  | nil => rfl
  | cons p t ih =>
      by_cases h : p.1 = k
      · simp [amap, alookup, h]
      · simpa [amap, alookup, h] using ih

theorem akeys_amap {α β : Type} (l : List (String × α))
    (g : String → α → β) :
    akeys (amap l g) = akeys l := by
  induction l with
  | nil => rfl
  | cons p t ih => simp [amap, akeys]

theorem alookup_aupdate {α : Type} (l : List (String × α)) (n : String)
    (f : α → α) (k : String) :
    alookup (aupdate l n f) k =
      if k = n then (alookup l n).map f else alookup l k := by
  unfold aupdate
  rw [alookup_amap]
  by_cases h : k = n
  · simp [h]
  · simp only [h, if_false]
    cases alookup l k <;> simp

theorem akeys_aupdate {α : Type} (l : List (String × α)) (n : String)
    (f : α → α) : akeys (aupdate l n f) = akeys l := by
  unfold aupdate; exact akeys_amap l _

theorem aupdate_of_absent {α : Type} {l : List (String × α)} {n : String}
    (f : α → α) (h : alookup l n = none) : aupdate l n f = l := by
  induction l with
  | nil => rfl
  | cons p t ih =>
      unfold alookup at h
      by_cases hp : p.1 = n
      · simp [hp] at h
      · simp [hp] at h
        simp [aupdate, amap, hp] at ih ⊢
        exact ih h

theorem alookup_aerase {α : Type} (l : List (String × α)) (n k : String) :
    alookup (aerase l n) k = if k = n then none else alookup l k := by
  induction l with
  | nil => simp [aerase, alookup]
  | cons p t ih =>
      by_cases hp : p.1 = n
      · by_cases hk : k = n
        · simpa [aerase, alookup, hp, hk] using ih
        · have hpk : ¬p.1 = k := fun hh => hk (hh.symm.trans hp)
          have hnk : ¬n = k := fun hh => hk hh.symm
          simpa [aerase, alookup, hp, hk, hpk, hnk] using ih
      · by_cases hk : k = n
        · have hpk : ¬p.1 = k := fun hh => hp (hh.trans hk)
          simpa [aerase, alookup, hp, hk, hpk] using ih
        · by_cases hpk : p.1 = k
          · simp [aerase, alookup, hp, hk, hpk]
          · simpa [aerase, alookup, hp, hk, hpk] using ih

theorem aerase_aupdate {α : Type} (l : List (String × α)) (n : String)
    (f : α → α) : aerase (aupdate l n f) n = aerase l n := by
  induction l with
  | nil => rfl
  | cons p t ih =>
      by_cases hp : p.1 = n
      · simpa [aupdate, amap, aerase, hp] using ih
      · simpa [aupdate, amap, aerase, hp] using ih

theorem alookup_aensure_self {α : Type} (l : List (String × α)) (k : String)
    (v : α) :
    alookup (aensure l k v) k = some ((alookup l k).getD v) := by
  unfold aensure
  cases h : alookup l k with
  | some w => simp [h]
  | none =>
      rw [alookup_append, h]
      simp [alookup]

theorem alookup_aensure_ne {α : Type} (l : List (String × α)) (k : String)
    (v : α) (k' : String) (h : k' ≠ k) :
    alookup (aensure l k v) k' = alookup l k' := by
  unfold aensure
  cases hl : alookup l k with
  | some w => rfl
  | none =>
      rw [alookup_append]
      cases hk' : alookup l k' with
      | some w => rfl
      | none => simp [alookup, Ne.symm h]

theorem mem_akeys_aensure {α : Type} {l : List (String × α)} {k' : String}
    (k : String) (v : α) (h : k' ∈ akeys l) : k' ∈ akeys (aensure l k v) := by
  unfold aensure
  cases hl : alookup l k with
  | some w => exact h
  | none => simp [akeys] at h ⊢; exact Or.inl h

/-- ClusterChild: one per cluster name.  child_policy_ is the lazily created
inner policy instance, identified by the fresh number handed out at creation
(none models the nullptr before first Update); picker_wrapper_ holds the id of
the last picker the child reported (none models nullptr);
delayed_removal_timer_callback_pending_ and shutdown_ are the timer/teardown
flags of the source. -/
structure ClusterChild where
  child_policy_ : Option Nat
  picker_wrapper_ : Option Nat
  connectivity_state_ : ConnectivityState
  delayed_removal_timer_callback_pending_ : Bool
  shutdown_ : Bool
deriving DecidableEq, Repr

/-- Freshly constructed ClusterChild (constructor defaults: no policy yet, no
picker yet, connectivity_state_ = GRPC_CHANNEL_IDLE, no timer pending, not
shut down). -/
def ClusterChild.init : ClusterChild :=
  { child_policy_ := none
  , picker_wrapper_ := none
  , connectivity_state_ := ConnectivityState.IDLE
  , delayed_removal_timer_callback_pending_ := false
  , shutdown_ := false }

/-- ClusterChild::DeactivateLocked: a no-op when already pending removal,
otherwise arms the delayed-removal timer (modelled by the pending flag). -/
def DeactivateLocked (c : ClusterChild) : ClusterChild :=
  if c.delayed_removal_timer_callback_pending_ then c
  else { c with delayed_removal_timer_callback_pending_ := true }

/-- Body of ClusterChild::Helper::UpdateState past the shutdown guard: cache
the new picker unconditionally, then update connectivity_state_ unless the last
recorded state was TRANSIENT_FAILURE and the new state is not READY. -/
def applyChildStateChange (c : ClusterChild) (state : ConnectivityState)
    (pickerId : Nat) : ClusterChild :=
  if c.connectivity_state_ ≠ ConnectivityState.TRANSIENT_FAILURE ∨
      state = ConnectivityState.READY
  then { c with picker_wrapper_ := some pickerId, connectivity_state_ := state }
  else { c with picker_wrapper_ := some pickerId }

/-- Body of ClusterChild::UpdateLocked past the router-shutdown guard:
reactivate (clear the pending-removal flag, cancelling the timer) and create
the inner child policy instance on first call only.  Takes and returns the
router's fresh-instance counter; forwarding the config to the inner instance
has no further effect on this state (the instance answers through callback
events). -/
def clusterChildUpdateLocked (c : ClusterChild) (next_id : Nat) :
    ClusterChild × Nat :=
  let c1 := if c.delayed_removal_timer_callback_pending_
            then { c with delayed_removal_timer_callback_pending_ := false }
            else c
  match c1.child_policy_ with
  | some _ => (c1, next_id)
  | none => ({ c1 with child_policy_ := some next_id }, next_id + 1)

/-- Entry of the ClusterPicker snapshot the router publishes: either the id of
the picker a child reported, or the QueuePicker substituted while the child
has not yet reported one. -/
inductive PickerEntry
  | child (id : Nat)
  | queue
deriving DecidableEq, Repr

/-- Status code attached to an aggregate publication (absl::Status is OK by
default; UpdateStateLocked only ever sets kUnavailable). -/
inductive StatusCode
  | ok
  | unavailable
deriving DecidableEq, Repr

/-- One call of channel_control_helper()->UpdateState by the router: the
aggregated connectivity state, the status, and the ClusterPicker snapshot. -/
structure Publication where
  state : ConnectivityState
  status : StatusCode
  status_message : String
  picker : List (String × PickerEntry)
deriving DecidableEq, Repr

/-- State of one XdsClusterManagerLb policy object.  config_ is the
cluster_map() of the current config (cluster name → opaque child config,
empty before the first update, modelling the initial nullptr); children_ is
the ChildRecord map; publications is the log of aggregate publications made to
the enclosing channel; next_child_id_ hands out fresh inner-instance ids. -/
structure XdsClusterManagerLb where
  config_ : List (String × Nat)
  shutting_down_ : Bool
  update_in_progress_ : Bool
  children_ : List (String × ClusterChild)
  publications : List Publication
  next_child_id_ : Nat
deriving DecidableEq, Repr

/-- A freshly constructed XdsClusterManagerLb. -/
def initState : XdsClusterManagerLb :=
  { config_ := []
  , shutting_down_ := false
  , update_in_progress_ := false
  , children_ := []
  , publications := []
  , next_child_id_ := 0 }

/-- Children of the current configuration snapshot: the ChildRecords whose
name the counting loop of UpdateStateLocked does not skip. -/
def configuredChildren (s : XdsClusterManagerLb) :
    List (String × ClusterChild) :=
  s.children_.filter fun p => (alookup s.config_ p.1).isSome

/-- Connectivity states of the configured children, the multiset the four
counters of UpdateStateLocked tally. -/
def configuredStates (s : XdsClusterManagerLb) : List ConnectivityState :=
  (configuredChildren s).map fun p => p.2.connectivity_state_

/-- Number of configured children in one connectivity state (num_ready,
num_connecting, num_idle, num_transient_failures of the source). -/
def countState (s : XdsClusterManagerLb) (cs : ConnectivityState) : Nat :=
  (configuredChildren s).countP fun p => decide (p.2.connectivity_state_ = cs)

/-- Aggregated connectivity state, chosen exactly as the if-cascade of
UpdateStateLocked. -/
def aggregatedState (s : XdsClusterManagerLb) : ConnectivityState :=
  if countState s ConnectivityState.READY > 0 then ConnectivityState.READY
  else if countState s ConnectivityState.CONNECTING > 0 then
    ConnectivityState.CONNECTING
  else if countState s ConnectivityState.IDLE > 0 then ConnectivityState.IDLE
  else ConnectivityState.TRANSIENT_FAILURE

/-- Picker entry UpdateStateLocked builds for one configured cluster: the
child's picker wrapper if it has reported one, else a fresh QueuePicker.  The
source indexes children_ with the unguarded operator[]; the none branch for a
missing record models that lookup, and the reachability invariant (claim C10)
shows it is never taken with a missing record when the router recomputes. -/
def pickerEntryFor (s : XdsClusterManagerLb) (k : String) : PickerEntry :=
  match alookup s.children_ k with
  | some c =>
      match c.picker_wrapper_ with
      | some id => PickerEntry.child id
      | none => PickerEntry.queue
  | none => PickerEntry.queue

/-- ClusterPicker map built by UpdateStateLocked: one entry per cluster of the
current configuration snapshot. -/
def buildClusterMap (s : XdsClusterManagerLb) : List (String × PickerEntry) :=
  amap s.config_ fun k _ => pickerEntryFor s k

/-- Publication assembled at the end of UpdateStateLocked: status is
kUnavailable with the TRANSIENT_FAILURE message iff the aggregated state is
TRANSIENT_FAILURE, OK (empty message) otherwise. -/
def mkPublication (s : XdsClusterManagerLb) : Publication :=
  { state := aggregatedState s
  , status :=
      if aggregatedState s = ConnectivityState.TRANSIENT_FAILURE
      then StatusCode.unavailable else StatusCode.ok
  , status_message :=
      if aggregatedState s = ConnectivityState.TRANSIENT_FAILURE
      then "TRANSIENT_FAILURE from XdsClusterManagerLb" else ""
  , picker := buildClusterMap s }

/-- XdsClusterManagerLb::UpdateStateLocked: ignore the call while an update is
in progress, otherwise publish the aggregated state, status and a fresh
ClusterPicker to the enclosing channel. -/
def UpdateStateLocked (s : XdsClusterManagerLb) : XdsClusterManagerLb :=
  if s.update_in_progress_ then s
  else { s with publications := s.publications ++ [mkPublication s] }

/-- ClusterChild::Helper::UpdateState: drop the callback if the router is
shutting down; otherwise apply the picker caching and state latching to the
record and ask the router to recompute the aggregate. -/
def helperUpdateState (s : XdsClusterManagerLb) (name : String)
    (state : ConnectivityState) (pickerId : Nat) : XdsClusterManagerLb :=
  if s.shutting_down_ then s
  else
    UpdateStateLocked
      { s with children_ :=
          aupdate s.children_ name fun c => applyChildStateChange c state pickerId }

/-- Body of the add-or-update loop of XdsClusterManagerLb::UpdateLocked for
one configured cluster name: children_[name] default-constructs a new record
if the name is absent, then the record's UpdateLocked runs (its
router-shutdown guard hoisted here). -/
def addOrUpdateChild (s : XdsClusterManagerLb) (name : String) :
    XdsClusterManagerLb :=
  let s1 := { s with children_ := aensure s.children_ name ClusterChild.init }
  if s1.shutting_down_ then s1
  else
    match alookup s1.children_ name with
    | none => s1
    | some c =>
        let r := clusterChildUpdateLocked c s1.next_child_id_
        { s1 with
            children_ := aupdate s1.children_ name fun _ => r.1
          , next_child_id_ := r.2 }

/-- Synchronous callbacks one child's inner policy fires while handling a
forwarded update, entering the router through its Helper. -/
def cbsFold (n : String) (l : List (ConnectivityState × Nat))
    (a : XdsClusterManagerLb) : XdsClusterManagerLb :=
  l.foldl (fun a cb => helperUpdateState a n cb.1 cb.2) a

/-- One iteration of the add-or-update loop of UpdateLocked: ensure and update
the child for one configured cluster, then let its inner policy fire its
synchronous callbacks. -/
def updateStep (cbs : String → List (ConnectivityState × Nat))
    (acc : XdsClusterManagerLb) (p : String × Nat) : XdsClusterManagerLb :=
  cbsFold p.1 (cbs p.1) (addOrUpdateChild acc p.1)

/-- Deactivation loop of UpdateLocked: every existing child whose name is
absent from the new config is deactivated. -/
def deactivateAbsent (children : List (String × ClusterChild))
    (cfg : List (String × Nat)) : List (String × ClusterChild) :=
  amap children fun k c => if alookup cfg k = none then DeactivateLocked c else c

/-- XdsClusterManagerLb::UpdateLocked: no-op when shutting down; otherwise set
update_in_progress_, store the new config, deactivate the children absent from
it, add or update a child for every configured name (cbs gives, per cluster
name, the connectivity/picker callbacks its inner policy fires synchronously
while handling the forwarded update), clear update_in_progress_, and
recompute the aggregate unconditionally. -/
def UpdateLocked (s : XdsClusterManagerLb) (cfg : List (String × Nat))
    (cbs : String → List (ConnectivityState × Nat)) : XdsClusterManagerLb :=
  if s.shutting_down_ then s
  else
    let s2 := { s with update_in_progress_ := true, config_ := cfg,
                       children_ := deactivateAbsent s.children_ cfg }
    let s3 := cfg.foldl (updateStep cbs) s2
    UpdateStateLocked { s3 with update_in_progress_ := false }

/-- XdsClusterManagerLb::ShutdownLocked: set the shutdown flag and destroy
every ChildRecord (clearing children_ orphans each record, which cancels any
pending removal timer).  Note the source does not reset config_. -/
def ShutdownLocked (s : XdsClusterManagerLb) : XdsClusterManagerLb :=
  { s with shutting_down_ := true, children_ := [] }

/-- XdsClusterManagerLb::ExitIdleLocked: forwards to every live child; the
returned list is the set of children the call was forwarded to. -/
def ExitIdleLocked (s : XdsClusterManagerLb) :
    XdsClusterManagerLb × List String :=
  (s, akeys s.children_)

/-- XdsClusterManagerLb::ResetBackoffLocked: forwards to every live child; the
returned list is the set of children the call was forwarded to. -/
def ResetBackoffLocked (s : XdsClusterManagerLb) :
    XdsClusterManagerLb × List String :=
  (s, akeys s.children_)

/-- ClusterChild::OnDelayedRemovalTimerLocked: clear the pending flag, and
erase the record from the router's children map only when the timer fired
uncancelled (error_is_none) and the record was not shut down.  The record's
flags are read through the map when the record is still there; a callback for
a record no longer in the map (possible only after its Orphan, which cancelled
the timer) leaves the state untouched. -/
def OnDelayedRemovalTimerLocked (s : XdsClusterManagerLb) (name : String)
    (error_is_none : Bool) : XdsClusterManagerLb :=
  let s1 := { s with children_ :=
      (aupdate s.children_ name fun c =>
        { c with delayed_removal_timer_callback_pending_ := false }) }
  match alookup s.children_ name with
  | none => s1
  | some c =>
      if error_is_none && !c.shutdown_
      then { s1 with children_ := aerase s1.children_ name }
      else s1

/-- Configurations that reach the router: the parsing boundary rejects an
empty cluster set and empty cluster names, and a std::map has no duplicate
keys. -/
def ValidConfig (cfg : List (String × Nat)) : Prop :=
  cfg ≠ [] ∧ (akeys cfg).Nodup ∧ ∀ p ∈ cfg, p.1 ≠ ""

instance : DecidablePred ValidConfig := fun cfg => by
  unfold ValidConfig; infer_instance

/-- Timer-firing guard: an uncancelled firing can only be delivered for a
record whose timer is armed. -/
def TimerArmed (s : XdsClusterManagerLb) (name : String) : Prop :=
  ∃ c, alookup s.children_ name = some c ∧
    c.delayed_removal_timer_callback_pending_ = true

/-- Cancelled-firing guard: a cancelled callback is delivered only after the
cancellation, so the record (if still in the map) no longer has the flag
set. -/
def TimerCancelled (s : XdsClusterManagerLb) (name : String) : Prop :=
  ∀ c, alookup s.children_ name = some c →
    c.delayed_removal_timer_callback_pending_ = false

/-- Child-callback guard: connectivity callbacks come only from a created
inner policy instance of a record still owned by the router. -/
def CbValid (s : XdsClusterManagerLb) (name : String) : Prop :=
  ∃ c, alookup s.children_ name = some c ∧ c.child_policy_.isSome = true

/-- Reachable router states under the serialized execution model: every
mutation is one of the policy operations, with asynchronous child callbacks
and timer firings entering the serialized context one at a time. -/
inductive Reachable : XdsClusterManagerLb → Prop
  | init : Reachable initState
  | update {s : XdsClusterManagerLb} {cfg : List (String × Nat)}
      (cbs : String → List (ConnectivityState × Nat)) :
      Reachable s → ValidConfig cfg → Reachable (UpdateLocked s cfg cbs)
  | child_state {s : XdsClusterManagerLb} {name : String}
      (state : ConnectivityState) (pickerId : Nat) :
      Reachable s → CbValid s name →
      Reachable (helperUpdateState s name state pickerId)
  | timer_fire {s : XdsClusterManagerLb} {name : String} :
      Reachable s → TimerArmed s name →
      Reachable (OnDelayedRemovalTimerLocked s name true)
  | timer_fire_cancelled {s : XdsClusterManagerLb} {name : String} :
      Reachable s → TimerCancelled s name →
      Reachable (OnDelayedRemovalTimerLocked s name false)
  | do_shutdown {s : XdsClusterManagerLb} :
      Reachable s → Reachable (ShutdownLocked s)

theorem UpdateStateLocked_config (s : XdsClusterManagerLb) :
    (UpdateStateLocked s).config_ = s.config_ := by
  unfold UpdateStateLocked; split <;> rfl

theorem UpdateStateLocked_children (s : XdsClusterManagerLb) :
    (UpdateStateLocked s).children_ = s.children_ := by
  unfold UpdateStateLocked; split <;> rfl

theorem UpdateStateLocked_shutting (s : XdsClusterManagerLb) :
    (UpdateStateLocked s).shutting_down_ = s.shutting_down_ := by
  unfold UpdateStateLocked; split <;> rfl

theorem UpdateStateLocked_flag (s : XdsClusterManagerLb) :
    (UpdateStateLocked s).update_in_progress_ = s.update_in_progress_ := by
  unfold UpdateStateLocked; split <;> rfl

theorem UpdateStateLocked_next (s : XdsClusterManagerLb) :
    (UpdateStateLocked s).next_child_id_ = s.next_child_id_ := by
  unfold UpdateStateLocked; split <;> rfl

theorem UpdateStateLocked_of_flag {s : XdsClusterManagerLb}
    (h : s.update_in_progress_ = true) : UpdateStateLocked s = s := by
  unfold UpdateStateLocked; simp [h]

theorem UpdateStateLocked_publishes {s : XdsClusterManagerLb}
    (h : s.update_in_progress_ = false) :
    (UpdateStateLocked s).publications = s.publications ++ [mkPublication s] := by
  unfold UpdateStateLocked; simp [h]

theorem applyChildStateChange_pending (c : ClusterChild)
    (st : ConnectivityState) (pk : Nat) :
    (applyChildStateChange c st pk).delayed_removal_timer_callback_pending_ =
      c.delayed_removal_timer_callback_pending_ := by
  unfold applyChildStateChange; split <;> rfl

theorem applyChildStateChange_shutdown (c : ClusterChild)
    (st : ConnectivityState) (pk : Nat) :
    (applyChildStateChange c st pk).shutdown_ = c.shutdown_ := by
  unfold applyChildStateChange; split <;> rfl

theorem applyChildStateChange_policy (c : ClusterChild)
    (st : ConnectivityState) (pk : Nat) :
    (applyChildStateChange c st pk).child_policy_ = c.child_policy_ := by
  unfold applyChildStateChange; split <;> rfl

theorem applyChildStateChange_picker (c : ClusterChild)
    (st : ConnectivityState) (pk : Nat) :
    (applyChildStateChange c st pk).picker_wrapper_ = some pk := by
  unfold applyChildStateChange; split <;> rfl

theorem DeactivateLocked_policy (c : ClusterChild) :
    (DeactivateLocked c).child_policy_ = c.child_policy_ := by
  unfold DeactivateLocked; split <;> rfl

theorem DeactivateLocked_shutdown (c : ClusterChild) :
    (DeactivateLocked c).shutdown_ = c.shutdown_ := by
  unfold DeactivateLocked; split <;> rfl

theorem DeactivateLocked_picker (c : ClusterChild) :
    (DeactivateLocked c).picker_wrapper_ = c.picker_wrapper_ := by
  unfold DeactivateLocked; split <;> rfl

theorem DeactivateLocked_connectivity (c : ClusterChild) :
    (DeactivateLocked c).connectivity_state_ = c.connectivity_state_ := by
  unfold DeactivateLocked; split <;> rfl

theorem DeactivateLocked_pending (c : ClusterChild) :
    (DeactivateLocked c).delayed_removal_timer_callback_pending_ = true := by
  unfold DeactivateLocked
  cases h : c.delayed_removal_timer_callback_pending_ <;> simp [h]

theorem clusterChildUpdateLocked_pending (c : ClusterChild) (nid : Nat) :
    (clusterChildUpdateLocked c nid).1.delayed_removal_timer_callback_pending_ =
      false := by
  unfold clusterChildUpdateLocked
  cases hb : c.delayed_removal_timer_callback_pending_ <;>
    cases hcp : c.child_policy_ <;> simp [hb, hcp]

theorem clusterChildUpdateLocked_shutdown (c : ClusterChild) (nid : Nat) :
    (clusterChildUpdateLocked c nid).1.shutdown_ = c.shutdown_ := by
  unfold clusterChildUpdateLocked
  cases hb : c.delayed_removal_timer_callback_pending_ <;>
    cases hcp : c.child_policy_ <;> simp [hb, hcp]

theorem clusterChildUpdateLocked_policy_some {c : ClusterChild} {id : Nat}
    (nid : Nat) (h : c.child_policy_ = some id) :
    (clusterChildUpdateLocked c nid).1.child_policy_ = some id ∧
      (clusterChildUpdateLocked c nid).2 = nid := by
  unfold clusterChildUpdateLocked
  cases hb : c.delayed_removal_timer_callback_pending_ <;> simp [hb, h]

theorem clusterChildUpdateLocked_policy_none {c : ClusterChild}
    (nid : Nat) (h : c.child_policy_ = none) :
    (clusterChildUpdateLocked c nid).1.child_policy_ = some nid ∧
      (clusterChildUpdateLocked c nid).2 = nid + 1 := by
  unfold clusterChildUpdateLocked
  cases hb : c.delayed_removal_timer_callback_pending_ <;> simp [hb, h]

theorem clusterChildUpdateLocked_policy_isSome (c : ClusterChild) (nid : Nat) :
    ((clusterChildUpdateLocked c nid).1.child_policy_).isSome = true := by
  cases h : c.child_policy_ with
  | some id => simp [(clusterChildUpdateLocked_policy_some nid h).1]
  | none => simp [(clusterChildUpdateLocked_policy_none nid h).1]

theorem helperUpdateState_config (s : XdsClusterManagerLb) (n : String)
    (st : ConnectivityState) (pk : Nat) :
    (helperUpdateState s n st pk).config_ = s.config_ := by
  unfold helperUpdateState
  split
  · rfl
  · rw [UpdateStateLocked_config]

theorem helperUpdateState_shutting (s : XdsClusterManagerLb) (n : String)
    (st : ConnectivityState) (pk : Nat) :
    (helperUpdateState s n st pk).shutting_down_ = s.shutting_down_ := by
  unfold helperUpdateState
  split
  · rfl
  · rw [UpdateStateLocked_shutting]

theorem helperUpdateState_flag (s : XdsClusterManagerLb) (n : String)
    (st : ConnectivityState) (pk : Nat) :
    (helperUpdateState s n st pk).update_in_progress_ =
      s.update_in_progress_ := by
  unfold helperUpdateState
  split
  · rfl
  · rw [UpdateStateLocked_flag]

theorem helperUpdateState_next (s : XdsClusterManagerLb) (n : String)
    (st : ConnectivityState) (pk : Nat) :
    (helperUpdateState s n st pk).next_child_id_ = s.next_child_id_ := by
  unfold helperUpdateState
  split
  · rfl
  · rw [UpdateStateLocked_next]

theorem helperUpdateState_of_shutdown {s : XdsClusterManagerLb} (n : String)
    (st : ConnectivityState) (pk : Nat) (h : s.shutting_down_ = true) :
    helperUpdateState s n st pk = s := by
  unfold helperUpdateState; simp [h]

theorem helperUpdateState_children {s : XdsClusterManagerLb} (n : String)
    (st : ConnectivityState) (pk : Nat) (h : s.shutting_down_ = false) :
    (helperUpdateState s n st pk).children_ =
      aupdate s.children_ n fun c => applyChildStateChange c st pk := by
  unfold helperUpdateState
  simp [h, UpdateStateLocked_children]

theorem helperUpdateState_publications_of_flag {s : XdsClusterManagerLb}
    (n : String) (st : ConnectivityState) (pk : Nat)
    (h : s.update_in_progress_ = true) :
    (helperUpdateState s n st pk).publications = s.publications := by
  unfold helperUpdateState
  split
  · rfl
  · rw [UpdateStateLocked_of_flag]
    exact h

theorem addOrUpdateChild_config (s : XdsClusterManagerLb) (n : String) :
    (addOrUpdateChild s n).config_ = s.config_ := by
  simp only [addOrUpdateChild]
  split
  · rfl
  · split <;> rfl

theorem addOrUpdateChild_shutting (s : XdsClusterManagerLb) (n : String) :
    (addOrUpdateChild s n).shutting_down_ = s.shutting_down_ := by
  simp only [addOrUpdateChild]
  split
  · rfl
  · split <;> rfl

theorem addOrUpdateChild_flag (s : XdsClusterManagerLb) (n : String) :
    (addOrUpdateChild s n).update_in_progress_ = s.update_in_progress_ := by
  simp only [addOrUpdateChild]
  split
  · rfl
  · split <;> rfl

theorem addOrUpdateChild_publications (s : XdsClusterManagerLb) (n : String) :
    (addOrUpdateChild s n).publications = s.publications := by
  simp only [addOrUpdateChild]
  split
  · rfl
  · split <;> rfl

theorem addOrUpdateChild_children_ne {s : XdsClusterManagerLb} {n k : String}
    (h : ¬k = n) :
    alookup (addOrUpdateChild s n).children_ k = alookup s.children_ k := by
  simp only [addOrUpdateChild]
  split
  · exact alookup_aensure_ne _ _ _ _ h
  · split
    · exact alookup_aensure_ne _ _ _ _ h
    · rw [alookup_aupdate, if_neg h, alookup_aensure_ne _ _ _ _ h]

theorem addOrUpdateChild_keys_mono {s : XdsClusterManagerLb} {k : String}
    (n : String) (h : k ∈ akeys s.children_) :
    k ∈ akeys (addOrUpdateChild s n).children_ := by
  simp only [addOrUpdateChild]
  split
  · exact mem_akeys_aensure _ _ h
  · split
    · exact mem_akeys_aensure _ _ h
    · rw [akeys_aupdate]; exact mem_akeys_aensure _ _ h

theorem addOrUpdateChild_children_self {s : XdsClusterManagerLb} {n : String}
    (h : s.shutting_down_ = false) :
    alookup (addOrUpdateChild s n).children_ n =
      some (clusterChildUpdateLocked
              ((alookup s.children_ n).getD ClusterChild.init)
              s.next_child_id_).1 := by
  cases hc : alookup s.children_ n with
  | some c =>
      simp [addOrUpdateChild, aensure, hc, h, alookup_aupdate]
  | none =>
      simp [addOrUpdateChild, aensure, hc, h, alookup_aupdate, alookup_append,
        alookup]

/-- How a ChildRecord can change across the add-or-update loop and the child
callbacks it triggers: the shutdown flag is untouched, the pending-removal
flag is never newly set, and a created inner policy instance is never
replaced. -/
def ChildEvolved (c c' : ClusterChild) : Prop :=
  c'.shutdown_ = c.shutdown_ ∧
  (c'.delayed_removal_timer_callback_pending_ = true →
    c.delayed_removal_timer_callback_pending_ = true) ∧
  (∀ id, c.child_policy_ = some id → c'.child_policy_ = some id)

/-- Records created during the loop start not shut down and not pending. -/
def ChildNew (c' : ClusterChild) : Prop :=
  c'.shutdown_ = false ∧ c'.delayed_removal_timer_callback_pending_ = false

theorem ChildEvolved.rfl (c : ClusterChild) : ChildEvolved c c :=
  ⟨Eq.refl _, fun h => h, fun _ h => h⟩

theorem ChildEvolved.trans {a b c : ClusterChild}
    (h1 : ChildEvolved a b) (h2 : ChildEvolved b c) : ChildEvolved a c :=
  ⟨h2.1.trans h1.1, fun h => h1.2.1 (h2.2.1 h),
   fun id h => h2.2.2 id (h1.2.2 id h)⟩

theorem ChildNew.evolved {b c : ClusterChild}
    (h1 : ChildNew b) (h2 : ChildEvolved b c) : ChildNew c := by
  refine ⟨h2.1.trans h1.1, ?_⟩
  cases hp : c.delayed_removal_timer_callback_pending_ with
  | true => exact absurd (h2.2.1 hp) (by simp [h1.2])
  | false => rfl

theorem applyChildStateChange_evolved (c : ClusterChild)
    (st : ConnectivityState) (pk : Nat) :
    ChildEvolved c (applyChildStateChange c st pk) :=
  ⟨applyChildStateChange_shutdown c st pk,
   fun h => (applyChildStateChange_pending c st pk) ▸ h,
   fun id h => (applyChildStateChange_policy c st pk).trans h⟩

theorem helperUpdateState_evolve {s : XdsClusterManagerLb} {n k : String}
    {st : ConnectivityState} {pk : Nat} {c' : ClusterChild}
    (h : alookup (helperUpdateState s n st pk).children_ k = some c') :
    ∃ c, alookup s.children_ k = some c ∧ ChildEvolved c c' := by
  by_cases hs : s.shutting_down_ = true
  · rw [helperUpdateState_of_shutdown n st pk hs] at h
    exact ⟨c', h, ChildEvolved.rfl c'⟩
  · rw [helperUpdateState_children n st pk (by simpa using hs),
      alookup_aupdate] at h
    by_cases hk : k = n
    · rw [if_pos hk] at h
      subst hk
      cases hc : alookup s.children_ k with
      | none => rw [hc] at h; cases h
      | some c =>
          rw [hc] at h
          simp only [Option.map_some'] at h
          cases h
          exact ⟨c, rfl, applyChildStateChange_evolved c st pk⟩
    · rw [if_neg hk] at h
      exact ⟨c', h, ChildEvolved.rfl c'⟩

theorem helperUpdateState_keys (s : XdsClusterManagerLb) (n : String)
    (st : ConnectivityState) (pk : Nat) :
    akeys (helperUpdateState s n st pk).children_ = akeys s.children_ := by
  by_cases hs : s.shutting_down_ = true
  · rw [helperUpdateState_of_shutdown n st pk hs]
  · rw [helperUpdateState_children n st pk (by simpa using hs), akeys_aupdate]

theorem cbsFold_config (n : String) (l : List (ConnectivityState × Nat))
    (a : XdsClusterManagerLb) : (cbsFold n l a).config_ = a.config_ := by
  induction l generalizing a with
  | nil => rfl
  | cons cb t ih =>
      show (cbsFold n t (helperUpdateState a n cb.1 cb.2)).config_ = _
      rw [ih, helperUpdateState_config]

theorem cbsFold_shutting (n : String) (l : List (ConnectivityState × Nat))
    (a : XdsClusterManagerLb) :
    (cbsFold n l a).shutting_down_ = a.shutting_down_ := by
  induction l generalizing a with
  | nil => rfl
  | cons cb t ih =>
      show (cbsFold n t (helperUpdateState a n cb.1 cb.2)).shutting_down_ = _
      rw [ih, helperUpdateState_shutting]

theorem cbsFold_flag (n : String) (l : List (ConnectivityState × Nat))
    (a : XdsClusterManagerLb) :
    (cbsFold n l a).update_in_progress_ = a.update_in_progress_ := by
  induction l generalizing a with
  | nil => rfl
  | cons cb t ih =>
      show (cbsFold n t (helperUpdateState a n cb.1 cb.2)).update_in_progress_ = _
      rw [ih, helperUpdateState_flag]

theorem cbsFold_publications {a : XdsClusterManagerLb} (n : String)
    (l : List (ConnectivityState × Nat)) (h : a.update_in_progress_ = true) :
    (cbsFold n l a).publications = a.publications := by
  induction l generalizing a with
  | nil => rfl
  | cons cb t ih =>
      show (cbsFold n t (helperUpdateState a n cb.1 cb.2)).publications = _
      rw [ih (by rw [helperUpdateState_flag]; exact h),
        helperUpdateState_publications_of_flag n cb.1 cb.2 h]

theorem cbsFold_keys (n : String) (l : List (ConnectivityState × Nat))
    (a : XdsClusterManagerLb) :
    akeys (cbsFold n l a).children_ = akeys a.children_ := by
  induction l generalizing a with
  | nil => rfl
  | cons cb t ih =>
      show akeys (cbsFold n t (helperUpdateState a n cb.1 cb.2)).children_ = _
      rw [ih, helperUpdateState_keys]

theorem cbsFold_evolve {n : String} {l : List (ConnectivityState × Nat)}
    {a : XdsClusterManagerLb} {k : String} {c' : ClusterChild}
    (h : alookup (cbsFold n l a).children_ k = some c') :
    ∃ c, alookup a.children_ k = some c ∧ ChildEvolved c c' := by
  induction l generalizing a with
  | nil => exact ⟨c', h, ChildEvolved.rfl c'⟩
  | cons cb t ih =>
      have h' : alookup (cbsFold n t (helperUpdateState a n cb.1 cb.2)).children_ k
          = some c' := h
      obtain ⟨cm, hcm, hev⟩ := ih h'
      obtain ⟨c, hc, hev0⟩ := helperUpdateState_evolve hcm
      exact ⟨c, hc, hev0.trans hev⟩

theorem addOrUpdateChild_children_of_shutdown {s : XdsClusterManagerLb}
    {n : String} (hs : s.shutting_down_ = true) :
    (addOrUpdateChild s n).children_ =
      aensure s.children_ n ClusterChild.init := by
  simp [addOrUpdateChild, hs]

theorem aensure_alookup_cases {α : Type} (l : List (String × α)) (n : String)
    (v : α) (k : String) :
    alookup (aensure l n v) k = alookup l k ∨
      (alookup l k = none ∧ alookup (aensure l n v) k = some v) := by
  by_cases hk : k = n
  · subst hk
    cases hc : alookup l k with
    | some w => left; unfold aensure; rw [hc]; exact hc
    | none => right; exact ⟨rfl, by rw [alookup_aensure_self, hc]; rfl⟩
  · left; exact alookup_aensure_ne _ _ _ _ hk

theorem clusterChildUpdateLocked_evolved (c : ClusterChild) (nid : Nat) :
    ChildEvolved c (clusterChildUpdateLocked c nid).1 := by
  refine ⟨clusterChildUpdateLocked_shutdown c nid, ?_, ?_⟩
  · rw [clusterChildUpdateLocked_pending]; intro h; cases h
  · intro id h; exact (clusterChildUpdateLocked_policy_some nid h).1

theorem ChildNew.init : ChildNew ClusterChild.init := ⟨rfl, rfl⟩

theorem addOrUpdateChild_evolve {s : XdsClusterManagerLb} {n k : String}
    {c' : ClusterChild}
    (h : alookup (addOrUpdateChild s n).children_ k = some c') :
    (∃ c, alookup s.children_ k = some c ∧ ChildEvolved c c') ∨
      (alookup s.children_ k = none ∧ ChildNew c') := by
  by_cases hk : k = n
  · subst hk
    by_cases hs : s.shutting_down_ = true
    · rw [addOrUpdateChild_children_of_shutdown hs] at h
      rcases aensure_alookup_cases s.children_ k ClusterChild.init k with
        hc | ⟨hnone, hsome⟩
      · rw [hc] at h; exact Or.inl ⟨c', h, ChildEvolved.rfl c'⟩
      · rw [hsome] at h
        cases h
        exact Or.inr ⟨hnone, ChildNew.init⟩
    · rw [addOrUpdateChild_children_self (by simpa using hs)] at h
      cases h
      cases hc : alookup s.children_ k with
      | some c =>
          exact Or.inl ⟨c, rfl,
            clusterChildUpdateLocked_evolved c s.next_child_id_⟩
      | none =>
          exact Or.inr ⟨rfl,
            ChildNew.init.evolved
              (clusterChildUpdateLocked_evolved ClusterChild.init
                s.next_child_id_)⟩
  · rw [addOrUpdateChild_children_ne hk] at h
    exact Or.inl ⟨c', h, ChildEvolved.rfl c'⟩

theorem updateStep_config (cbs : String → List (ConnectivityState × Nat))
    (acc : XdsClusterManagerLb) (p : String × Nat) :
    (updateStep cbs acc p).config_ = acc.config_ := by
  unfold updateStep; rw [cbsFold_config, addOrUpdateChild_config]

theorem updateStep_shutting (cbs : String → List (ConnectivityState × Nat))
    (acc : XdsClusterManagerLb) (p : String × Nat) :
    (updateStep cbs acc p).shutting_down_ = acc.shutting_down_ := by
  unfold updateStep; rw [cbsFold_shutting, addOrUpdateChild_shutting]

theorem updateStep_flag (cbs : String → List (ConnectivityState × Nat))
    (acc : XdsClusterManagerLb) (p : String × Nat) :
    (updateStep cbs acc p).update_in_progress_ = acc.update_in_progress_ := by
  unfold updateStep; rw [cbsFold_flag, addOrUpdateChild_flag]

theorem updateStep_publications {acc : XdsClusterManagerLb}
    (cbs : String → List (ConnectivityState × Nat)) (p : String × Nat)
    (h : acc.update_in_progress_ = true) :
    (updateStep cbs acc p).publications = acc.publications := by
  unfold updateStep
  rw [cbsFold_publications _ _ (by rw [addOrUpdateChild_flag]; exact h),
    addOrUpdateChild_publications]

theorem updateStep_keys_mono {acc : XdsClusterManagerLb} {k : String}
    (cbs : String → List (ConnectivityState × Nat)) (p : String × Nat)
    (h : k ∈ akeys acc.children_) :
    k ∈ akeys (updateStep cbs acc p).children_ := by
  unfold updateStep
  rw [cbsFold_keys]
  exact addOrUpdateChild_keys_mono _ h

theorem updateStep_evolve {acc : XdsClusterManagerLb} {k : String}
    {c' : ClusterChild} {cbs : String → List (ConnectivityState × Nat)}
    {p : String × Nat}
    (h : alookup (updateStep cbs acc p).children_ k = some c') :
    (∃ c, alookup acc.children_ k = some c ∧ ChildEvolved c c') ∨
      (alookup acc.children_ k = none ∧ ChildNew c') := by
  obtain ⟨cm, hcm, hev⟩ := cbsFold_evolve h
  rcases addOrUpdateChild_evolve hcm with ⟨c, hc, hev0⟩ | ⟨hnone, hnew⟩
  · exact Or.inl ⟨c, hc, hev0.trans hev⟩
  · exact Or.inr ⟨hnone, hnew.evolved hev⟩

theorem updateStep_self {acc : XdsClusterManagerLb}
    (cbs : String → List (ConnectivityState × Nat)) (p : String × Nat)
    (hs : acc.shutting_down_ = false) :
    ∃ c', alookup (updateStep cbs acc p).children_ p.1 = some c' ∧
      c'.delayed_removal_timer_callback_pending_ = false ∧
      (c'.child_policy_).isSome = true := by
  have hmid := addOrUpdateChild_children_self (n := p.1) hs
  have hmem : p.1 ∈ akeys (addOrUpdateChild acc p.1).children_ := by
    rw [← alookup_isSome_iff, hmid]; rfl
  have hmem' : p.1 ∈ akeys (updateStep cbs acc p).children_ := by
    unfold updateStep; rw [cbsFold_keys]; exact hmem
  obtain ⟨c', hc'⟩ := Option.isSome_iff_exists.mp (alookup_isSome_iff.mpr hmem')
  obtain ⟨cm, hcm, hev⟩ := cbsFold_evolve (hc' : alookup _ _ = some c')
  rw [hmid] at hcm
  cases hcm
  refine ⟨c', hc', ?_, ?_⟩
  · cases hp : c'.delayed_removal_timer_callback_pending_ with
    | true =>
        have := hev.2.1 hp
        rw [clusterChildUpdateLocked_pending] at this
        cases this
    | false => rfl
  · obtain ⟨id, hid⟩ := Option.isSome_iff_exists.mp
      (clusterChildUpdateLocked_policy_isSome
        ((alookup acc.children_ p.1).getD ClusterChild.init) acc.next_child_id_)
    rw [hev.2.2 id hid]; rfl

theorem updateFold_props (cbs : String → List (ConnectivityState × Nat))
    (cfg : List (String × Nat)) (acc : XdsClusterManagerLb)
    (hsd : acc.shutting_down_ = false) (hup : acc.update_in_progress_ = true) :
    (cfg.foldl (updateStep cbs) acc).shutting_down_ = false ∧
    (cfg.foldl (updateStep cbs) acc).update_in_progress_ = true ∧
    (cfg.foldl (updateStep cbs) acc).config_ = acc.config_ ∧
    (cfg.foldl (updateStep cbs) acc).publications = acc.publications ∧
    (∀ k, k ∈ akeys acc.children_ →
      k ∈ akeys (cfg.foldl (updateStep cbs) acc).children_) ∧
    (∀ k c', alookup (cfg.foldl (updateStep cbs) acc).children_ k = some c' →
      (∃ c, alookup acc.children_ k = some c ∧ ChildEvolved c c') ∨
        (alookup acc.children_ k = none ∧ ChildNew c')) ∧
    (∀ p ∈ cfg, ∃ c',
      alookup (cfg.foldl (updateStep cbs) acc).children_ p.1 = some c' ∧
      c'.delayed_removal_timer_callback_pending_ = false ∧
      (c'.child_policy_).isSome = true) := by
  induction cfg generalizing acc with
  | nil =>
      refine ⟨hsd, hup, rfl, rfl, fun k h => h,
        fun k c' h => Or.inl ⟨c', h, ChildEvolved.rfl c'⟩, by simp⟩
  | cons p t ih =>
      have hms : (updateStep cbs acc p).shutting_down_ = false := by
        rw [updateStep_shutting]; exact hsd
      have hmf : (updateStep cbs acc p).update_in_progress_ = true := by
        rw [updateStep_flag]; exact hup
      obtain ⟨h1, h2, h3, h4, h5, h6, h7⟩ := ih (updateStep cbs acc p) hms hmf
      have hfold : (p :: t).foldl (updateStep cbs) acc =
          t.foldl (updateStep cbs) (updateStep cbs acc p) := rfl
      rw [hfold]
      refine ⟨h1, h2, ?_, ?_, ?_, ?_, ?_⟩
      · rw [h3, updateStep_config]
      · rw [h4, updateStep_publications cbs p hup]
      · intro k hk
        exact h5 k (updateStep_keys_mono cbs p hk)
      · intro k c' hc'
        rcases h6 k c' hc' with ⟨cm, hcm, hev⟩ | ⟨hnone, hnew⟩
        · rcases updateStep_evolve hcm with ⟨c, hc, hev0⟩ | ⟨hn0, hnew0⟩
          · exact Or.inl ⟨c, hc, hev0.trans hev⟩
          · exact Or.inr ⟨hn0, hnew0.evolved hev⟩
        · cases hacc : alookup acc.children_ k with
          | some c =>
              exfalso
              have hmem : k ∈ akeys acc.children_ := by
                rw [← alookup_isSome_iff, hacc]; rfl
              have : k ∈ akeys (updateStep cbs acc p).children_ :=
                updateStep_keys_mono cbs p hmem
              rw [← alookup_isSome_iff, hnone] at this
              cases this
          | none => exact Or.inr ⟨rfl, hnew⟩
      · intro q hq
        rcases List.mem_cons.mp hq with hq | hq
        · subst hq
          obtain ⟨cm, hcm, hpend, hpol⟩ := updateStep_self cbs q hsd
          have hmem : q.1 ∈ akeys (t.foldl (updateStep cbs)
              (updateStep cbs acc q)).children_ := by
            apply h5
            rw [← alookup_isSome_iff, hcm]; rfl
          obtain ⟨c', hc'⟩ :=
            Option.isSome_iff_exists.mp (alookup_isSome_iff.mpr hmem)
          rcases h6 q.1 c' hc' with ⟨cm', hcm', hev⟩ | ⟨hnone, _⟩
          · rw [hcm] at hcm'
            cases hcm'
            refine ⟨c', hc', ?_, ?_⟩
            · cases hp' : c'.delayed_removal_timer_callback_pending_ with
              | true => rw [hev.2.1 hp'] at hpend; cases hpend
              | false => rfl
            · obtain ⟨id, hid⟩ := Option.isSome_iff_exists.mp hpol
              rw [hev.2.2 id hid]; rfl
          · rw [hcm] at hnone; cases hnone
        · exact h7 q hq

theorem deactivateAbsent_alookup (l : List (String × ClusterChild))
    (cfg : List (String × Nat)) (k : String) :
    alookup (deactivateAbsent l cfg) k =
      (alookup l k).map
        (fun c => if alookup cfg k = none then DeactivateLocked c else c) := by
  unfold deactivateAbsent; exact alookup_amap l _ k

theorem deactivateAbsent_keys (l : List (String × ClusterChild))
    (cfg : List (String × Nat)) :
    akeys (deactivateAbsent l cfg) = akeys l := by
  unfold deactivateAbsent; exact akeys_amap l _

/-- Invariant of reachable router states: no update pass is left half-done
between events; every configured cluster has a ChildRecord while the router is
live; a record whose removal timer is armed is never in the current config;
after shutdown the children map is empty; records owned by the router are
never in the (Orphan-only) shutdown state. -/
def RouterInv (s : XdsClusterManagerLb) : Prop :=
  s.update_in_progress_ = false ∧
  (s.shutting_down_ = false →
    ∀ k, k ∈ akeys s.config_ → k ∈ akeys s.children_) ∧
  (∀ k c, alookup s.children_ k = some c →
    c.delayed_removal_timer_callback_pending_ = true →
    alookup s.config_ k = none) ∧
  (s.shutting_down_ = true → s.children_ = []) ∧
  (∀ k c, alookup s.children_ k = some c → c.shutdown_ = false)

theorem inv_initState : RouterInv initState := by
  refine ⟨rfl, ?_, ?_, ?_, ?_⟩
  · intro _ k hk; simpa [initState, akeys] using hk
  · intro k c hc; simp [initState, alookup] at hc
  · intro _; rfl
  · intro k c hc; simp [initState, alookup] at hc

theorem inv_shutdown {s : XdsClusterManagerLb} (h : RouterInv s) :
    RouterInv (ShutdownLocked s) := by
  refine ⟨h.1, ?_, ?_, ?_, ?_⟩
  · intro hfalse; cases hfalse
  · intro k c hc; simp [ShutdownLocked, alookup] at hc
  · intro _; rfl
  · intro k c hc; simp [ShutdownLocked, alookup] at hc

theorem OnDelayedRemovalTimerLocked_of_absent {s : XdsClusterManagerLb}
    {name : String} (e : Bool) (hc : alookup s.children_ name = none) :
    OnDelayedRemovalTimerLocked s name e = s := by
  simp only [OnDelayedRemovalTimerLocked, hc]
  rw [aupdate_of_absent _ hc]

theorem inv_timer_fire {s : XdsClusterManagerLb} {name : String}
    (h : RouterInv s) (ht : TimerArmed s name) :
    RouterInv (OnDelayedRemovalTimerLocked s name true) := by
  obtain ⟨c0, hc0, hpend⟩ := ht
  have hsd : s.shutting_down_ = false := by
    cases hv : s.shutting_down_ with
    | true => rw [h.2.2.2.1 hv] at hc0; cases hc0
    | false => rfl
  have hshut : c0.shutdown_ = false := h.2.2.2.2 name c0 hc0
  have hres : (OnDelayedRemovalTimerLocked s name true).children_ =
      aerase s.children_ name := by
    simp only [OnDelayedRemovalTimerLocked, hc0, hshut]
    simp [aerase_aupdate]
  have hcfgname : alookup s.config_ name = none := h.2.2.1 name c0 hc0 hpend
  have hconf : (OnDelayedRemovalTimerLocked s name true).config_ = s.config_ := by
    simp only [OnDelayedRemovalTimerLocked, hc0, hshut]
    simp
  have hflag : (OnDelayedRemovalTimerLocked s name true).update_in_progress_ =
      s.update_in_progress_ := by
    simp only [OnDelayedRemovalTimerLocked, hc0, hshut]
    simp
  have hshutfield : (OnDelayedRemovalTimerLocked s name true).shutting_down_ =
      s.shutting_down_ := by
    simp only [OnDelayedRemovalTimerLocked, hc0, hshut]
    simp
  refine ⟨by rw [hflag]; exact h.1, ?_, ?_, ?_, ?_⟩
  · intro _ k hk
    rw [hconf] at hk
    rw [hres, ← alookup_isSome_iff, alookup_aerase]
    have hkname : ¬k = name := by
      intro he
      rw [← alookup_isSome_iff] at hk
      rw [he, hcfgname] at hk
      cases hk
    rw [if_neg hkname, alookup_isSome_iff]
    exact h.2.1 hsd k hk
  · intro k c hc hp
    rw [hres, alookup_aerase] at hc
    rw [hconf]
    by_cases hk : k = name
    · rw [if_pos hk] at hc; cases hc
    · rw [if_neg hk] at hc
      exact h.2.2.1 k c hc hp
  · intro hv; rw [hshutfield] at hv; rw [hsd] at hv; cases hv
  · intro k c hc
    rw [hres, alookup_aerase] at hc
    by_cases hk : k = name
    · rw [if_pos hk] at hc; cases hc
    · rw [if_neg hk] at hc
      exact h.2.2.2.2 k c hc

theorem inv_timer_cancelled {s : XdsClusterManagerLb} {name : String}
    (h : RouterInv s) (ht : TimerCancelled s name) :
    RouterInv (OnDelayedRemovalTimerLocked s name false) := by
  cases hc : alookup s.children_ name with
  | none => rw [OnDelayedRemovalTimerLocked_of_absent false hc]; exact h
  | some c0 =>
      have hres : (OnDelayedRemovalTimerLocked s name false).children_ =
          aupdate s.children_ name
            (fun c => { c with delayed_removal_timer_callback_pending_ := false }) := by
        simp only [OnDelayedRemovalTimerLocked, hc]
        simp
      have hconf : (OnDelayedRemovalTimerLocked s name false).config_ =
          s.config_ := by
        simp only [OnDelayedRemovalTimerLocked, hc]; simp
      have hflag :
          (OnDelayedRemovalTimerLocked s name false).update_in_progress_ =
            s.update_in_progress_ := by
        simp only [OnDelayedRemovalTimerLocked, hc]; simp
      have hshutfield :
          (OnDelayedRemovalTimerLocked s name false).shutting_down_ =
            s.shutting_down_ := by
        simp only [OnDelayedRemovalTimerLocked, hc]; simp
      refine ⟨by rw [hflag]; exact h.1, ?_, ?_, ?_, ?_⟩
      · intro hl k hk
        rw [hshutfield] at hl
        rw [hconf] at hk
        rw [hres, ← alookup_isSome_iff, alookup_aupdate]
        by_cases hkn : k = name
        · rw [if_pos hkn, hc]; rfl
        · rw [if_neg hkn, alookup_isSome_iff]
          exact h.2.1 hl k hk
      · intro k c hck hp
        rw [hres, alookup_aupdate] at hck
        rw [hconf]
        by_cases hkn : k = name
        · rw [if_pos hkn, hc] at hck
          simp only [Option.map_some'] at hck
          cases hck
          cases hp
        · rw [if_neg hkn] at hck
          exact h.2.2.1 k c hck hp
      · intro hv
        rw [hshutfield] at hv
        rw [h.2.2.2.1 hv] at hres
        rw [hres]
        rfl
      · intro k c hck
        rw [hres, alookup_aupdate] at hck
        by_cases hkn : k = name
        · rw [if_pos hkn, hc] at hck
          simp only [Option.map_some'] at hck
          cases hck
          exact h.2.2.2.2 name c0 hc
        · rw [if_neg hkn] at hck
          exact h.2.2.2.2 k c hck

theorem inv_child_state {s : XdsClusterManagerLb} {name : String}
    (state : ConnectivityState) (pk : Nat) (h : RouterInv s) :
    RouterInv (helperUpdateState s name state pk) := by
  by_cases hs : s.shutting_down_ = true
  · rw [helperUpdateState_of_shutdown name state pk hs]; exact h
  · have hs' : s.shutting_down_ = false := by simpa using hs
    have hch := helperUpdateState_children name state pk hs'
    refine ⟨by rw [helperUpdateState_flag]; exact h.1, ?_, ?_, ?_, ?_⟩
    · intro _ k hk
      rw [helperUpdateState_config] at hk
      rw [hch, ← alookup_isSome_iff, alookup_aupdate]
      by_cases hkn : k = name
      · rw [if_pos hkn]
        have := alookup_isSome_iff.mpr (h.2.1 hs' k hk)
        rw [hkn] at this
        obtain ⟨c, hc⟩ := Option.isSome_iff_exists.mp this
        rw [hc]; rfl
      · rw [if_neg hkn, alookup_isSome_iff]
        exact h.2.1 hs' k hk
    · intro k c hck hp
      rw [helperUpdateState_config]
      rw [hch, alookup_aupdate] at hck
      by_cases hkn : k = name
      · rw [if_pos hkn] at hck
        cases hc0 : alookup s.children_ name with
        | none => rw [hc0] at hck; cases hck
        | some c0 =>
            rw [hc0] at hck
            simp only [Option.map_some'] at hck
            cases hck
            rw [applyChildStateChange_pending] at hp
            rw [hkn]
            exact h.2.2.1 name c0 hc0 hp
      · rw [if_neg hkn] at hck
        exact h.2.2.1 k c hck hp
    · intro hv
      rw [helperUpdateState_shutting, hs'] at hv
      cases hv
    · intro k c hck
      rw [hch, alookup_aupdate] at hck
      by_cases hkn : k = name
      · rw [if_pos hkn] at hck
        cases hc0 : alookup s.children_ name with
        | none => rw [hc0] at hck; cases hck
        | some c0 =>
            rw [hc0] at hck
            simp only [Option.map_some'] at hck
            cases hck
            rw [applyChildStateChange_shutdown]
            exact h.2.2.2.2 name c0 hc0
      · rw [if_neg hkn] at hck
        exact h.2.2.2.2 k c hck

theorem UpdateLocked_of_shutdown {s : XdsClusterManagerLb}
    (cfg : List (String × Nat))
    (cbs : String → List (ConnectivityState × Nat))
    (hs : s.shutting_down_ = true) : UpdateLocked s cfg cbs = s := by
  simp [UpdateLocked, hs]

theorem UpdateLocked_eq {s : XdsClusterManagerLb} (cfg : List (String × Nat))
    (cbs : String → List (ConnectivityState × Nat))
    (hs : s.shutting_down_ = false) :
    UpdateLocked s cfg cbs =
      UpdateStateLocked
        { (cfg.foldl (updateStep cbs)
            { s with update_in_progress_ := true, config_ := cfg,
                     children_ := deactivateAbsent s.children_ cfg }) with
          update_in_progress_ := false } := by
  simp [UpdateLocked, hs]


theorem mem_akeys {α : Type} {l : List (String × α)} {k : String} :
    k ∈ akeys l ↔ ∃ p, p ∈ l ∧ p.1 = k := by
  unfold akeys
  exact List.mem_map

theorem inv_update_aux {X s : XdsClusterManagerLb} {cfg : List (String × Nat)}
    (hXsd : X.shutting_down_ = false)
    (hXcfg : X.config_ = cfg)
    (hX7 : ∀ p ∈ cfg, ∃ c', alookup X.children_ p.1 = some c' ∧
      c'.delayed_removal_timer_callback_pending_ = false ∧
      (c'.child_policy_).isSome = true)
    (hX6 : ∀ k c', alookup X.children_ k = some c' →
      (∃ c, alookup (deactivateAbsent s.children_ cfg) k = some c ∧
        ChildEvolved c c') ∨
      (alookup (deactivateAbsent s.children_ cfg) k = none ∧ ChildNew c'))
    (hs5 : ∀ k c, alookup s.children_ k = some c → c.shutdown_ = false) :
    RouterInv (UpdateStateLocked { X with update_in_progress_ := false }) := by
  have hch : (UpdateStateLocked
      { X with update_in_progress_ := false }).children_ = X.children_ := by
    rw [UpdateStateLocked_children]
  have hcf : (UpdateStateLocked
      { X with update_in_progress_ := false }).config_ = cfg := by
    rw [UpdateStateLocked_config]; exact hXcfg
  have hsd : (UpdateStateLocked
      { X with update_in_progress_ := false }).shutting_down_ = false := by
    rw [UpdateStateLocked_shutting]; exact hXsd
  have hfl : (UpdateStateLocked
      { X with update_in_progress_ := false }).update_in_progress_ = false := by
    rw [UpdateStateLocked_flag]
  refine ⟨hfl, ?_, ?_, ?_, ?_⟩
  · intro _ k hk
    rw [hcf] at hk
    rw [hch, ← alookup_isSome_iff]
    obtain ⟨p, hp, hpk⟩ := mem_akeys.mp hk
    obtain ⟨c', hc', _, _⟩ := hX7 p hp
    rw [← hpk, hc']
    rfl
  · intro k c hck hp
    rw [hch] at hck
    rw [hcf]
    by_cases hk : k ∈ akeys cfg
    · exfalso
      obtain ⟨p, hpmem, hpk⟩ := mem_akeys.mp hk
      obtain ⟨c5, hc5, hpend5, _⟩ := hX7 p hpmem
      rw [hpk] at hc5
      have hcc := hck.symm.trans hc5
      injection hcc with hcc
      rw [← hcc, hp] at hpend5
      cases hpend5
    · exact alookup_eq_none_iff.mpr hk
  · intro hv
    rw [hsd] at hv
    cases hv
  · intro k c hck
    rw [hch] at hck
    rcases hX6 k c hck with ⟨c2, hc2, hev⟩ | ⟨_, hnew⟩
    · rw [deactivateAbsent_alookup] at hc2
      cases hc0 : alookup s.children_ k with
      | none => rw [hc0] at hc2; cases hc2
      | some c0 =>
          rw [hc0] at hc2
          simp only [Option.map_some'] at hc2
          injection hc2 with hc2
          have hsd0 : c2.shutdown_ = c0.shutdown_ := by
            rw [← hc2]
            by_cases hd : alookup cfg k = none
            · rw [if_pos hd, DeactivateLocked_shutdown]
            · rw [if_neg hd]
          rw [hev.1, hsd0]
          exact hs5 k c0 hc0
    · exact hnew.1

theorem inv_update {s : XdsClusterManagerLb} (cfg : List (String × Nat))
    (cbs : String → List (ConnectivityState × Nat)) (h : RouterInv s) :
    RouterInv (UpdateLocked s cfg cbs) := by
  by_cases hs : s.shutting_down_ = true
  · rw [UpdateLocked_of_shutdown cfg cbs hs]; exact h
  · have hs' : s.shutting_down_ = false := by simpa using hs
    rw [UpdateLocked_eq cfg cbs hs']
    obtain ⟨f1, f2, f3, f4, f5, f6, f7⟩ := updateFold_props cbs cfg
      { s with update_in_progress_ := true, config_ := cfg,
               children_ := deactivateAbsent s.children_ cfg } hs' rfl
    exact inv_update_aux f1 f3 f7 f6 h.2.2.2.2

/-- Every reachable router state satisfies the invariant. -/
theorem reachable_inv {s : XdsClusterManagerLb} (h : Reachable s) :
    RouterInv s := by
  induction h with
  | init => exact inv_initState
  | update cbs _ _ ih => exact inv_update _ cbs ih
  | child_state state pickerId _ _ ih => exact inv_child_state state pickerId ih
  | timer_fire _ ht ih => exact inv_timer_fire ih ht
  | timer_fire_cancelled _ ht ih => exact inv_timer_cancelled ih ht
  | do_shutdown _ ih => exact inv_shutdown ih

theorem countState_pos_iff (s : XdsClusterManagerLb) (cs : ConnectivityState) :
    0 < countState s cs ↔ cs ∈ configuredStates s := by
  unfold countState configuredStates
  rw [List.countP_pos]
  constructor
  · rintro ⟨p, hp, hdec⟩
    exact List.mem_map.mpr ⟨p, hp, by simpa using hdec⟩
  · intro h
    obtain ⟨p, hp, hcs⟩ := List.mem_map.mp h
    exact ⟨p, hp, by simp [hcs]⟩

theorem aggregatedState_eq (s : XdsClusterManagerLb) :
    aggregatedState s =
      (if ConnectivityState.READY ∈ configuredStates s
       then ConnectivityState.READY
       else if ConnectivityState.CONNECTING ∈ configuredStates s
       then ConnectivityState.CONNECTING
       else if ConnectivityState.IDLE ∈ configuredStates s
       then ConnectivityState.IDLE
       else ConnectivityState.TRANSIENT_FAILURE) := by
  have hR := countState_pos_iff s ConnectivityState.READY
  have hC := countState_pos_iff s ConnectivityState.CONNECTING
  have hI := countState_pos_iff s ConnectivityState.IDLE
  unfold aggregatedState
  by_cases h1 : ConnectivityState.READY ∈ configuredStates s
  · rw [if_pos (hR.mpr h1), if_pos h1]
  · rw [if_neg (fun hh => h1 (hR.mp hh)), if_neg h1]
    by_cases h2 : ConnectivityState.CONNECTING ∈ configuredStates s
    · rw [if_pos (hC.mpr h2), if_pos h2]
    · rw [if_neg (fun hh => h2 (hC.mp hh)), if_neg h2]
      by_cases h3 : ConnectivityState.IDLE ∈ configuredStates s
      · rw [if_pos (hI.mpr h3), if_pos h3]
      · rw [if_neg (fun hh => h3 (hI.mp hh)), if_neg h3]

theorem aggregatedState_tf_iff (s : XdsClusterManagerLb) :
    aggregatedState s = ConnectivityState.TRANSIENT_FAILURE ↔
      ∀ cs ∈ configuredStates s,
        cs = ConnectivityState.TRANSIENT_FAILURE := by
  rw [aggregatedState_eq]
  constructor
  · intro h cs hcs
    cases cs with
    | TRANSIENT_FAILURE => rfl
    | READY => rw [if_pos hcs] at h; cases h
    | CONNECTING =>
        by_cases h1 : ConnectivityState.READY ∈ configuredStates s
        · rw [if_pos h1] at h; cases h
        · rw [if_neg h1, if_pos hcs] at h; cases h
    | IDLE =>
        by_cases h1 : ConnectivityState.READY ∈ configuredStates s
        · rw [if_pos h1] at h; cases h
        · by_cases h2 : ConnectivityState.CONNECTING ∈ configuredStates s
          · rw [if_neg h1, if_pos h2] at h; cases h
          · rw [if_neg h1, if_neg h2, if_pos hcs] at h; cases h
  · intro hall
    have h1 : ConnectivityState.READY ∉ configuredStates s := by
      intro hh; cases hall _ hh
    have h2 : ConnectivityState.CONNECTING ∉ configuredStates s := by
      intro hh; cases hall _ hh
    have h3 : ConnectivityState.IDLE ∉ configuredStates s := by
      intro hh; cases hall _ hh
    rw [if_neg h1, if_neg h2, if_neg h3]

theorem pickerEntryFor_eq (s : XdsClusterManagerLb) (k : String) :
    pickerEntryFor s k =
      match (alookup s.children_ k).bind (fun c => c.picker_wrapper_) with
      | some id => PickerEntry.child id
      | none => PickerEntry.queue := by
  unfold pickerEntryFor
  cases hc : alookup s.children_ k with
  | none => rfl
  | some c => cases hw : c.picker_wrapper_ <;> rfl

theorem alookup_buildClusterMap (s : XdsClusterManagerLb) (k : String) :
    alookup (buildClusterMap s) k =
      (alookup s.config_ k).map (fun _ => pickerEntryFor s k) := by
  unfold buildClusterMap
  exact alookup_amap s.config_ _ k

/-- C1: in every reachable router state, a recomputation (UpdateStateLocked)
publishes an aggregated connectivity state computed only over ChildRecords
whose cluster name is in the current configuration snapshot (configuredStates
filters children_ by config_ membership; records pending removal are outside
the snapshot, as the second conjunct shows), chosen by strict priority
READY, then CONNECTING, then IDLE, else TRANSIENT_FAILURE. -/
theorem C1_aggregate_state_priority (s : XdsClusterManagerLb)
    (hr : Reachable s) :
    (∃ pub, (UpdateStateLocked s).publications = s.publications ++ [pub] ∧
      pub.state =
        (if ConnectivityState.READY ∈ configuredStates s
         then ConnectivityState.READY
         else if ConnectivityState.CONNECTING ∈ configuredStates s
         then ConnectivityState.CONNECTING
         else if ConnectivityState.IDLE ∈ configuredStates s
         then ConnectivityState.IDLE
         else ConnectivityState.TRANSIENT_FAILURE)) ∧
    (∀ k c, alookup s.children_ k = some c →
      c.delayed_removal_timer_callback_pending_ = true →
      (alookup s.config_ k).isSome = false) := by
  have hinv := reachable_inv hr
  constructor
  · exact ⟨mkPublication s, UpdateStateLocked_publishes hinv.1,
      aggregatedState_eq s⟩
  · intro k c hc hp
    rw [hinv.2.2.1 k c hc hp]
    rfl

/-- Concrete reachable state used by several witnesses: one update with
clusters A and B, where the child for A synchronously reports READY with
picker 10 and the child for B reports CONNECTING with picker 11. -/
def wCbs : String → List (ConnectivityState × Nat) := fun n =>
  if n = "A" then [(ConnectivityState.READY, 10)]
  else if n = "B" then [(ConnectivityState.CONNECTING, 11)]
  else []

/-- Router state after that first update. -/
def wState : XdsClusterManagerLb :=
  UpdateLocked initState [("A", 0), ("B", 1)] wCbs

/-- The witness configuration is valid. -/
theorem wConfig_valid : ValidConfig [("A", 0), ("B", 1)] := by decide

/-- The witness state is reachable. -/
theorem wState_reachable : Reachable wState :=
  Reachable.update wCbs Reachable.init wConfig_valid

theorem C1_aggregate_state_priority_witness :
    Reachable wState ∧
    ((∃ pub, (UpdateStateLocked wState).publications =
        wState.publications ++ [pub] ∧
      pub.state =
        (if ConnectivityState.READY ∈ configuredStates wState
         then ConnectivityState.READY
         else if ConnectivityState.CONNECTING ∈ configuredStates wState
         then ConnectivityState.CONNECTING
         else if ConnectivityState.IDLE ∈ configuredStates wState
         then ConnectivityState.IDLE
         else ConnectivityState.TRANSIENT_FAILURE)) ∧
    (∀ k c, alookup wState.children_ k = some c →
      c.delayed_removal_timer_callback_pending_ = true →
      (alookup wState.config_ k).isSome = false)) :=
  ⟨wState_reachable, C1_aggregate_state_priority wState wState_reachable⟩

theorem applyChildStateChange_conn (c : ClusterChild)
    (st : ConnectivityState) (pk : Nat) :
    (applyChildStateChange c st pk).connectivity_state_ =
      (if c.connectivity_state_ = ConnectivityState.TRANSIENT_FAILURE ∧
          st ≠ ConnectivityState.READY
       then ConnectivityState.TRANSIENT_FAILURE else st) := by
  unfold applyChildStateChange
  by_cases h1 : c.connectivity_state_ = ConnectivityState.TRANSIENT_FAILURE
  · by_cases h2 : st = ConnectivityState.READY
    · simp [h1, h2]
    · simp [h1, h2]
  · simp [h1]

/-- C2: a child state callback records the new picker unconditionally, and
latches failure: the visible state becomes the reported state unless the
previous visible state was TRANSIENT_FAILURE and the new state is not READY,
in which case it stays TRANSIENT_FAILURE; in particular TRANSIENT_FAILURE
followed by CONNECTING remains visible as TRANSIENT_FAILURE.  The last
conjunct shows the router applies exactly this transformation to the record
on a callback. -/
theorem C2_failure_latching (c : ClusterChild) (st : ConnectivityState)
    (pk : Nat) (s : XdsClusterManagerLb) (name : String)
    (hs : s.shutting_down_ = false) :
    (applyChildStateChange c st pk).picker_wrapper_ = some pk ∧
    (applyChildStateChange c st pk).connectivity_state_ =
      (if c.connectivity_state_ = ConnectivityState.TRANSIENT_FAILURE ∧
          st ≠ ConnectivityState.READY
       then ConnectivityState.TRANSIENT_FAILURE else st) ∧
    (applyChildStateChange
      (applyChildStateChange c ConnectivityState.TRANSIENT_FAILURE pk)
      ConnectivityState.CONNECTING pk).connectivity_state_ =
      ConnectivityState.TRANSIENT_FAILURE ∧
    alookup (helperUpdateState s name st pk).children_ name =
      (alookup s.children_ name).map
        (fun c0 => applyChildStateChange c0 st pk) := by
  refine ⟨applyChildStateChange_picker c st pk,
    applyChildStateChange_conn c st pk, ?_, ?_⟩
  · rw [applyChildStateChange_conn, applyChildStateChange_conn]
    by_cases h1 : c.connectivity_state_ = ConnectivityState.TRANSIENT_FAILURE
    · simp [h1]
    · simp [h1]
  · rw [helperUpdateState_children name st pk hs, alookup_aupdate, if_pos rfl]

theorem C2_failure_latching_witness :
    initState.shutting_down_ = false ∧
    ((applyChildStateChange ClusterChild.init ConnectivityState.READY
        7).picker_wrapper_ = some 7 ∧
    (applyChildStateChange ClusterChild.init ConnectivityState.READY
        7).connectivity_state_ =
      (if ClusterChild.init.connectivity_state_ =
            ConnectivityState.TRANSIENT_FAILURE ∧
          ConnectivityState.READY ≠ ConnectivityState.READY
       then ConnectivityState.TRANSIENT_FAILURE
       else ConnectivityState.READY) ∧
    (applyChildStateChange
      (applyChildStateChange ClusterChild.init
        ConnectivityState.TRANSIENT_FAILURE 7)
      ConnectivityState.CONNECTING 7).connectivity_state_ =
      ConnectivityState.TRANSIENT_FAILURE ∧
    alookup (helperUpdateState initState "A" ConnectivityState.READY
        7).children_ "A" =
      (alookup initState.children_ "A").map
        (fun c0 => applyChildStateChange c0 ConnectivityState.READY 7)) :=
  ⟨rfl, C2_failure_latching ClusterChild.init ConnectivityState.READY 7
    initState "A" rfl⟩

/-- C3: a recomputation publishes a ClusterPicker whose key set is exactly the
cluster-name set of the configuration snapshot, with a queuing entry for every
configured cluster whose record has not yet reported a picker, the reported
picker otherwise, and no entry at all for names outside the snapshot. -/
theorem C3_picker_keys (s : XdsClusterManagerLb)
    (h : s.update_in_progress_ = false) :
    ∃ pub, (UpdateStateLocked s).publications = s.publications ++ [pub] ∧
      akeys pub.picker = akeys s.config_ ∧
      (∀ k, (alookup s.config_ k).isSome = true →
        ((alookup s.children_ k).bind (fun c => c.picker_wrapper_) = none →
          alookup pub.picker k = some PickerEntry.queue) ∧
        (∀ id,
          (alookup s.children_ k).bind (fun c => c.picker_wrapper_) = some id →
          alookup pub.picker k = some (PickerEntry.child id))) ∧
      (∀ k, (alookup s.config_ k).isSome = false →
        alookup pub.picker k = none) := by
  refine ⟨mkPublication s, UpdateStateLocked_publishes h, ?_, ?_, ?_⟩
  · show akeys (buildClusterMap s) = akeys s.config_
    unfold buildClusterMap
    exact akeys_amap s.config_ _
  · intro k hk
    obtain ⟨v, hv⟩ := Option.isSome_iff_exists.mp hk
    constructor
    · intro hnone
      show alookup (buildClusterMap s) k = some PickerEntry.queue
      rw [alookup_buildClusterMap, hv, Option.map_some', pickerEntryFor_eq,
        hnone]
    · intro id hid
      show alookup (buildClusterMap s) k = some (PickerEntry.child id)
      rw [alookup_buildClusterMap, hv, Option.map_some', pickerEntryFor_eq,
        hid]
  · intro k hk
    have hn : alookup s.config_ k = none := by
      cases hc : alookup s.config_ k with
      | none => rfl
      | some v => rw [hc] at hk; cases hk
    show alookup (buildClusterMap s) k = none
    rw [alookup_buildClusterMap, hn]
    rfl

theorem C3_picker_keys_witness :
    wState.update_in_progress_ = false ∧
    (∃ pub, (UpdateStateLocked wState).publications =
        wState.publications ++ [pub] ∧
      akeys pub.picker = akeys wState.config_ ∧
      (∀ k, (alookup wState.config_ k).isSome = true →
        ((alookup wState.children_ k).bind (fun c => c.picker_wrapper_) =
            none →
          alookup pub.picker k = some PickerEntry.queue) ∧
        (∀ id,
          (alookup wState.children_ k).bind (fun c => c.picker_wrapper_) =
            some id →
          alookup pub.picker k = some (PickerEntry.child id))) ∧
      (∀ k, (alookup wState.config_ k).isSome = false →
        alookup pub.picker k = none)) :=
  ⟨(reachable_inv wState_reachable).1,
    C3_picker_keys wState (reachable_inv wState_reachable).1⟩

/-- C4: while an update pass is in progress any child callback publishes
nothing, and one UpdateLocked call on a live router produces exactly one
aggregate publication (the unconditional recomputation after the flag is
cleared). -/
theorem C4_single_publication_per_update (s : XdsClusterManagerLb)
    (cfg : List (String × Nat))
    (cbs : String → List (ConnectivityState × Nat))
    (hs : s.shutting_down_ = false) :
    (UpdateLocked s cfg cbs).publications.length =
      s.publications.length + 1 ∧
    (∀ (t : XdsClusterManagerLb) (n : String) (st : ConnectivityState)
      (pk : Nat), t.update_in_progress_ = true →
      (helperUpdateState t n st pk).publications = t.publications) := by
  constructor
  · rw [UpdateLocked_eq cfg cbs hs]
    obtain ⟨f1, f2, f3, f4, f5, f6, f7⟩ := updateFold_props cbs cfg
      { s with update_in_progress_ := true, config_ := cfg,
               children_ := deactivateAbsent s.children_ cfg } hs rfl
    rw [UpdateStateLocked_publishes rfl]
    have f4' : (cfg.foldl (updateStep cbs)
        { s with update_in_progress_ := true, config_ := cfg,
                 children_ := deactivateAbsent s.children_ cfg }).publications
        = s.publications := f4
    simp [f4']
  · intro t n st pk ht
    exact helperUpdateState_publications_of_flag n st pk ht

theorem C4_single_publication_per_update_witness :
    initState.shutting_down_ = false ∧
    ((UpdateLocked initState [("A", 0), ("B", 1)] wCbs).publications.length =
      initState.publications.length + 1 ∧
    (∀ (t : XdsClusterManagerLb) (n : String) (st : ConnectivityState)
      (pk : Nat), t.update_in_progress_ = true →
      (helperUpdateState t n st pk).publications = t.publications)) :=
  ⟨rfl, C4_single_publication_per_update initState [("A", 0), ("B", 1)]
    wCbs rfl⟩

/-- C5: ClusterPicker.Pick routes on the call's cluster attribute: a hit
returns exactly what the child picker returns for the same args, a miss fails
with the unknown-cluster message which contains the literal requested name.
Pick is a pure function of the immutable picker and the call args, so it
modifies no router or child state. -/
theorem C5_pick_routing (cp : ClusterPicker) (args : PickArgs) :
    (∀ w, alookup cp.cluster_map_ args.cluster_attribute = some w →
      cp.Pick args = w.Pick args) ∧
    (alookup cp.cluster_map_ args.cluster_attribute = none →
      cp.Pick args = PickResult.Fail
        ("xds cluster manager picker: unknown cluster \"" ++
          args.cluster_attribute ++ "\"") ∧
      ∃ pre post, cp.Pick args =
        PickResult.Fail (pre ++ args.cluster_attribute ++ post)) := by
  constructor
  · intro w hw
    unfold ClusterPicker.Pick
    rw [hw]
  · intro hn
    constructor
    · unfold ClusterPicker.Pick
      rw [hn]
    · refine ⟨"xds cluster manager picker: unknown cluster \"", "\"", ?_⟩
      unfold ClusterPicker.Pick
      rw [hn]

/-- Concrete picker for the C5 witness: cluster A completes on subchannel 3. -/
def wPicker : ClusterPicker :=
  ClusterPicker.mk
    [("A", ChildPickerWrapper.mk "A" (fun _ => PickResult.Complete 3))]

theorem C5_pick_routing_witness :
    wPicker.Pick (PickArgs.mk "A" 0) = PickResult.Complete 3 ∧
    wPicker.Pick (PickArgs.mk "Z" 0) = PickResult.Fail
      "xds cluster manager picker: unknown cluster \"Z\"" ∧
    (∃ pre post, wPicker.Pick (PickArgs.mk "Z" 0) =
      PickResult.Fail (pre ++ "Z" ++ post)) := by
  refine ⟨?_, ?_, ?_⟩
  · exact ((C5_pick_routing wPicker (PickArgs.mk "A" 0)).1
      (ChildPickerWrapper.mk "A" (fun _ => PickResult.Complete 3)) rfl).trans
      rfl
  · exact (((C5_pick_routing wPicker (PickArgs.mk "Z" 0)).2 rfl).1).trans rfl
  · exact ((C5_pick_routing wPicker (PickArgs.mk "Z" 0)).2 rfl).2

/-- C6: every publication carries status Unavailable exactly when the
aggregated state is TRANSIENT_FAILURE, which holds exactly when every
configured child is in TRANSIENT_FAILURE; otherwise the status is OK. -/
theorem C6_status_unavailable_iff_tf (s : XdsClusterManagerLb)
    (h : s.update_in_progress_ = false) :
    ∃ pub, (UpdateStateLocked s).publications = s.publications ++ [pub] ∧
      (pub.status = StatusCode.unavailable ↔
        pub.state = ConnectivityState.TRANSIENT_FAILURE) ∧
      (pub.status ≠ StatusCode.unavailable → pub.status = StatusCode.ok) ∧
      (pub.state = ConnectivityState.TRANSIENT_FAILURE ↔
        ∀ cs ∈ configuredStates s,
          cs = ConnectivityState.TRANSIENT_FAILURE) := by
  refine ⟨mkPublication s, UpdateStateLocked_publishes h, ?_, ?_,
    aggregatedState_tf_iff s⟩
  · show (if aggregatedState s = ConnectivityState.TRANSIENT_FAILURE
        then StatusCode.unavailable else StatusCode.ok) =
          StatusCode.unavailable ↔
      aggregatedState s = ConnectivityState.TRANSIENT_FAILURE
    by_cases hh : aggregatedState s = ConnectivityState.TRANSIENT_FAILURE <;>
      simp [hh]
  · show (if aggregatedState s = ConnectivityState.TRANSIENT_FAILURE
        then StatusCode.unavailable else StatusCode.ok) ≠
          StatusCode.unavailable →
      (if aggregatedState s = ConnectivityState.TRANSIENT_FAILURE
        then StatusCode.unavailable else StatusCode.ok) = StatusCode.ok
    by_cases hh : aggregatedState s = ConnectivityState.TRANSIENT_FAILURE <;>
      simp [hh]

theorem C6_status_unavailable_iff_tf_witness :
    wState.update_in_progress_ = false ∧
    (∃ pub, (UpdateStateLocked wState).publications =
        wState.publications ++ [pub] ∧
      (pub.status = StatusCode.unavailable ↔
        pub.state = ConnectivityState.TRANSIENT_FAILURE) ∧
      (pub.status ≠ StatusCode.unavailable → pub.status = StatusCode.ok) ∧
      (pub.state = ConnectivityState.TRANSIENT_FAILURE ↔
        ∀ cs ∈ configuredStates wState,
          cs = ConnectivityState.TRANSIENT_FAILURE)) :=
  ⟨(reachable_inv wState_reachable).1,
    C6_status_unavailable_iff_tf wState (reachable_inv wState_reachable).1⟩

/-- C7: a ChildRecord update cancels a pending removal (clearing the flag),
creates the inner child policy only when none exists yet — an existing
instance is kept, with the fresh-id counter untouched — and across a whole
router UpdateLocked no record is ever removed from the children map and no
record's created inner instance is ever replaced. -/
theorem C7_reactivation_reuses_child (c : ClusterChild) (nid : Nat)
    (s : XdsClusterManagerLb) (cfg : List (String × Nat))
    (cbs : String → List (ConnectivityState × Nat)) :
    (clusterChildUpdateLocked c
      nid).1.delayed_removal_timer_callback_pending_ = false ∧
    (∀ id, c.child_policy_ = some id →
      (clusterChildUpdateLocked c nid).1.child_policy_ = some id ∧
      (clusterChildUpdateLocked c nid).2 = nid) ∧
    (c.child_policy_ = none →
      (clusterChildUpdateLocked c nid).1.child_policy_ = some nid ∧
      (clusterChildUpdateLocked c nid).2 = nid + 1) ∧
    (∀ k, k ∈ akeys s.children_ →
      k ∈ akeys (UpdateLocked s cfg cbs).children_) ∧
    (∀ k c0 c1 id, alookup s.children_ k = some c0 →
      c0.child_policy_ = some id →
      alookup (UpdateLocked s cfg cbs).children_ k = some c1 →
      c1.child_policy_ = some id) := by
  refine ⟨clusterChildUpdateLocked_pending c nid,
    fun id h => clusterChildUpdateLocked_policy_some nid h,
    fun h => clusterChildUpdateLocked_policy_none nid h, ?_, ?_⟩
  · intro k hk
    by_cases hs : s.shutting_down_ = true
    · rw [UpdateLocked_of_shutdown cfg cbs hs]; exact hk
    · have hs' : s.shutting_down_ = false := by simpa using hs
      obtain ⟨f1, f2, f3, f4, f5, f6, f7⟩ := updateFold_props cbs cfg
        { s with update_in_progress_ := true, config_ := cfg,
                 children_ := deactivateAbsent s.children_ cfg } hs' rfl
      have hkeys : akeys (UpdateLocked s cfg cbs).children_ =
          akeys (cfg.foldl (updateStep cbs)
            { s with update_in_progress_ := true, config_ := cfg,
                     children_ := deactivateAbsent s.children_ cfg }).children_ := by
        rw [UpdateLocked_eq cfg cbs hs', UpdateStateLocked_children]
      rw [hkeys]
      apply f5
      exact (deactivateAbsent_keys s.children_ cfg).symm ▸ hk
  · intro k c0 c1 id hc0 hid hc1
    by_cases hs : s.shutting_down_ = true
    · rw [UpdateLocked_of_shutdown cfg cbs hs] at hc1
      rw [hc0] at hc1
      injection hc1 with hc1
      rw [← hc1]
      exact hid
    · have hs' : s.shutting_down_ = false := by simpa using hs
      obtain ⟨f1, f2, f3, f4, f5, f6, f7⟩ := updateFold_props cbs cfg
        { s with update_in_progress_ := true, config_ := cfg,
                 children_ := deactivateAbsent s.children_ cfg } hs' rfl
      rw [UpdateLocked_eq cfg cbs hs', UpdateStateLocked_children] at hc1
      rcases f6 k c1 hc1 with ⟨c2, hc2, hev⟩ | ⟨hnone, _⟩
      · have hc2' : alookup (deactivateAbsent s.children_ cfg) k =
            some c2 := hc2
        rw [deactivateAbsent_alookup, hc0] at hc2'
        simp only [Option.map_some'] at hc2'
        injection hc2' with hc2'
        have hpol2 : c2.child_policy_ = some id := by
          rw [← hc2']
          by_cases hd : alookup cfg k = none
          · rw [if_pos hd, DeactivateLocked_policy]; exact hid
          · rw [if_neg hd]; exact hid
        exact hev.2.2 id hpol2
      · exfalso
        have hn : alookup (deactivateAbsent s.children_ cfg) k = none := hnone
        rw [deactivateAbsent_alookup, hc0] at hn
        cases hn

theorem C7_reactivation_reuses_child_witness :
    ({ ClusterChild.init with
        child_policy_ := some 5,
        delayed_removal_timer_callback_pending_ := true } :
      ClusterChild).child_policy_ = some 5 ∧
    ((clusterChildUpdateLocked
        { ClusterChild.init with
          child_policy_ := some 5,
          delayed_removal_timer_callback_pending_ := true }
        9).1.delayed_removal_timer_callback_pending_ = false ∧
    (clusterChildUpdateLocked
        { ClusterChild.init with
          child_policy_ := some 5,
          delayed_removal_timer_callback_pending_ := true }
        9).1.child_policy_ = some 5 ∧
    (clusterChildUpdateLocked
        { ClusterChild.init with
          child_policy_ := some 5,
          delayed_removal_timer_callback_pending_ := true }
        9).2 = 9 ∧
    (∀ k, k ∈ akeys wState.children_ →
      k ∈ akeys (UpdateLocked wState [("A", 2)] (fun _ => [])).children_)) := by
  have h := C7_reactivation_reuses_child
    { ClusterChild.init with
      child_policy_ := some 5,
      delayed_removal_timer_callback_pending_ := true }
    9 wState [("A", 2)] (fun _ => [])
  exact ⟨rfl, h.1, (h.2.1 5 rfl).1, (h.2.1 5 rfl).2, h.2.2.2.1⟩

/-- C8: when the delayed-removal timer callback runs, the record is erased
from the children map exactly when the timer fired uncancelled and the record
was not shut down; a cancelled firing, a firing for a shut-down record, or a
firing for a record no longer in the map leaves the map's key set untouched
(the last case leaves the whole state untouched — no double teardown). -/
theorem C8_timer_firing_no_op_on_race (s : XdsClusterManagerLb)
    (name : String) (err : Bool) :
    (err = false →
      akeys (OnDelayedRemovalTimerLocked s name err).children_ =
        akeys s.children_) ∧
    (∀ c, alookup s.children_ name = some c → c.shutdown_ = true →
      akeys (OnDelayedRemovalTimerLocked s name err).children_ =
        akeys s.children_) ∧
    (alookup s.children_ name = none →
      OnDelayedRemovalTimerLocked s name err = s) ∧
    (∀ c, alookup s.children_ name = some c → c.shutdown_ = false →
      err = true →
      (OnDelayedRemovalTimerLocked s name err).children_ =
        aerase s.children_ name ∧
      alookup (OnDelayedRemovalTimerLocked s name err).children_ name =
        none) := by
  refine ⟨?_, ?_, ?_, ?_⟩
  · intro he
    subst he
    cases hc : alookup s.children_ name with
    | none => rw [OnDelayedRemovalTimerLocked_of_absent false hc]
    | some c =>
        simp only [OnDelayedRemovalTimerLocked, hc]
        simp [akeys_aupdate]
  · intro c hc hsd
    simp only [OnDelayedRemovalTimerLocked, hc, hsd]
    simp [akeys_aupdate]
  · intro hc
    exact OnDelayedRemovalTimerLocked_of_absent err hc
  · intro c hc hsd he
    subst he
    have hch : (OnDelayedRemovalTimerLocked s name true).children_ =
        aerase s.children_ name := by
      simp only [OnDelayedRemovalTimerLocked, hc, hsd]
      simp [aerase_aupdate]
    refine ⟨hch, ?_⟩
    rw [hch, alookup_aerase, if_pos rfl]

theorem C8_timer_firing_no_op_on_race_witness :
    (alookup wState.children_ "A").isSome = true ∧
    (∀ c, alookup wState.children_ "A" = some c → c.shutdown_ = false) ∧
    (akeys (OnDelayedRemovalTimerLocked wState "A" false).children_ =
      akeys wState.children_) ∧
    (OnDelayedRemovalTimerLocked wState "Z" true = wState) := by
  have h := C8_timer_firing_no_op_on_race wState "A" false
  have h2 := C8_timer_firing_no_op_on_race wState "Z" true
  refine ⟨by decide, ?_, h.1 rfl, h2.2.2.1 (by decide)⟩
  intro c hc
  exact (reachable_inv wState_reachable).2.2.2.2 "A" c hc

/-- C10: in every reachable live router state, every cluster name of the
current configuration snapshot has a ChildRecord in the children map, so the
unguarded children lookup of UpdateStateLocked's picker-building loop never
misses (and the queue fallback of pickerEntryFor for a missing record is
never what produces an entry). -/
theorem C10_configured_children_present (s : XdsClusterManagerLb)
    (hr : Reachable s) (hs : s.shutting_down_ = false) (k : String)
    (hk : (alookup s.config_ k).isSome = true) :
    (alookup s.children_ k).isSome = true := by
  have hinv := reachable_inv hr
  rw [alookup_isSome_iff] at hk ⊢
  exact hinv.2.1 hs k hk

theorem C10_configured_children_present_witness :
    Reachable wState ∧ wState.shutting_down_ = false ∧
    (alookup wState.config_ "A").isSome = true ∧
    (alookup wState.children_ "A").isSome = true ∧
    (alookup wState.config_ "B").isSome = true ∧
    (alookup wState.children_ "B").isSome = true :=
  ⟨wState_reachable, rfl, by decide,
    C10_configured_children_present wState wState_reachable rfl "A"
      (by decide),
    by decide,
    C10_configured_children_present wState wState_reachable rfl "B"
      (by decide)⟩

/-- C9 counterexample: ShutdownLocked does not release the configuration
snapshot.  After one update with clusters A and B, shutting the router down
leaves config_ exactly as it was — not the empty (released/null) snapshot the
claim requires. -/
theorem C9_counterexample_config_retained :
    (ShutdownLocked wState).config_ = [("A", 0), ("B", 1)] ∧
    (ShutdownLocked wState).config_ ≠ [] ∧
    (ShutdownLocked wState).config_ = wState.config_ := by
  refine ⟨by decide, by decide, rfl⟩

/-- C9 (amended): Shutdown sets the shutdown flag and destroys every
ChildRecord (cancelling their timers), but retains the configuration
snapshot; it is idempotent, and every subsequent operation — UpdateLocked,
child state callbacks, ExitIdle/ResetBackoff (which forward to the now-empty
children set, so signal nothing), and delayed-removal timer callbacks — is a
silent no-op leaving the state unchanged. -/
theorem C9_amended_shutdown_behavior (s : XdsClusterManagerLb) :
    (ShutdownLocked s).shutting_down_ = true ∧
    (ShutdownLocked s).children_ = [] ∧
    (ShutdownLocked s).config_ = s.config_ ∧
    ShutdownLocked (ShutdownLocked s) = ShutdownLocked s ∧
    (∀ cfg cbs, UpdateLocked (ShutdownLocked s) cfg cbs = ShutdownLocked s) ∧
    (∀ n st pk,
      helperUpdateState (ShutdownLocked s) n st pk = ShutdownLocked s) ∧
    (ExitIdleLocked (ShutdownLocked s)).1 = ShutdownLocked s ∧
    (ExitIdleLocked (ShutdownLocked s)).2 = [] ∧
    (ResetBackoffLocked (ShutdownLocked s)).1 = ShutdownLocked s ∧
    (ResetBackoffLocked (ShutdownLocked s)).2 = [] ∧
    (∀ n e,
      OnDelayedRemovalTimerLocked (ShutdownLocked s) n e = ShutdownLocked s) := by
  refine ⟨rfl, rfl, rfl, rfl, ?_, ?_, rfl, rfl, rfl, rfl, ?_⟩
  · intro cfg cbs
    exact UpdateLocked_of_shutdown cfg cbs rfl
  · intro n st pk
    exact helperUpdateState_of_shutdown n st pk rfl
  · intro n e
    exact OnDelayedRemovalTimerLocked_of_absent e rfl
